import Mathlib

/-!
Verification development for the SmartScrub data-cleaning backend.

The Python source (pandas-based) is shallowly embedded:
a table is a list of named, dtyped columns of optional scalar values;
pandas library primitives that the repository merely calls
(`pd.to_numeric`, `pd.to_datetime`, `str(float)` rendering, `Series.mean`,
`Series.median`, `Series.mode`, `Series.skew`, `str.title`) are abstracted
as an oracle record, so every theorem quantifies over their behaviour.
All repository logic (profiler type detection, suggestion generators,
ranker, manual and suggestion-based cleaning pipelines, API applied-list
reporting) is translated directly from the source files.
-/

namespace SmartScrub

/-- A scalar value stored in a table cell: number (Python int/float as ℚ),
string, boolean, or timestamp (epoch instant). -/
inductive Val where
  | num (q : ℚ)
  | str (s : String)
  | bool (b : Bool)
  | time (t : Int)
deriving DecidableEq

/-- A cell of a column: `none` models a pandas null (NaN/NaT/None). -/
abbrev Cell := Option Val

/-- The native (storage) dtype of a pandas Series. -/
inductive Dtype where
  | boolean
  | numeric
  | datetime
  | object
  | category
deriving DecidableEq

/-- Semantic data type assigned by the profiler (models `DataType` in
`app/models/dataset.py`). -/
inductive DataType where
  | numeric
  | categorical
  | datetime
  | text
  | boolean
deriving DecidableEq

/-- Impact level of a suggestion (models `ImpactLevel`). -/
inductive ImpactLevel where
  | low
  | medium
  | high
deriving DecidableEq

/-- Cleaning action of a suggestion (models `CleaningAction`). -/
inductive CleaningAction where
  | drop_duplicates
  | fill_missing
  | drop_missing
  | convert_type
  | remove_outliers
deriving DecidableEq

/-- Missing-value strategy of the manual pipeline
(models `MissingValueStrategy`). -/
inductive MissingValueStrategy where
  | drop
  | mean
  | median
  | mode
  | forward_fill
  | backward_fill
deriving DecidableEq

/-- Oracle for the pandas/Python library primitives the repository calls but
does not implement: numeric/datetime parsing, `str()` rendering of numbers
and timestamps, statistical reductions, and `str.title`.  Theorems quantify
over an arbitrary oracle; witnesses instantiate a concrete one. -/
structure PandasOracle where
  showNum : ℚ → String
  showTime : Int → String
  toNumeric : Val → Option ℚ
  toDatetime : Val → Option Int
  meanQ : List ℚ → ℚ
  medianQ : List ℚ → ℚ
  modeVals : List Val → List Val
  skewQ : List Cell → ℚ
  titleCase : String → String
  fmtPct : ℚ → String
  uuid4 : String

/-- One named column of a table, with its pandas dtype. -/
structure Col where
  name : String
  dtype : Dtype
  cells : List Cell
deriving DecidableEq

/-- A table is its ordered list of columns (column-major, as in pandas). -/
abbrev Table := List Col

/-- Python `str(value)` as applied by `Series.astype(str)`; a pandas null
renders as the string "nan". -/
def pyStr (O : PandasOracle) : Cell → String
  | none => "nan"
  | some (Val.num q) => O.showNum q
  | some (Val.str s) => s
  | some (Val.bool b) => if b then "True" else "False"
  | some (Val.time t) => O.showTime t

/-- Membership in the boolean-literal set used by `detect_data_type`:
`[True, False, 0, 1, 'true', 'false', 'True', 'False']`. -/
def isBoolLit (v : Val) : Bool :=
  decide (v ∈ [Val.bool true, Val.bool false, Val.num 0, Val.num 1,
    Val.str "true", Val.str "false", Val.str "True", Val.str "False"])

/-- Direct translation of `DataProfiler.detect_data_type`
(`app/services/profiler.py`, lines 10-50): drop nulls; empty means text;
then boolean, native numeric, native datetime, datetime by parsing the
first 100 values, numeric by parsing the first 100 values, categorical by
cardinality, else text. -/
def detect_data_type (O : PandasOracle) (dtype : Dtype) (cells : List Cell) :
    DataType :=
  let nonNull := cells.filterMap id
  if nonNull.length = 0 then DataType.text
  else if dtype = Dtype.boolean ∨ nonNull.all isBoolLit = true then
    DataType.boolean
  else if dtype = Dtype.numeric then DataType.numeric
  else if dtype = Dtype.datetime then DataType.datetime
  else if (nonNull.take 100).all (fun v => (O.toDatetime v).isSome) = true then
    DataType.datetime
  else if (nonNull.take 100).all (fun v => (O.toNumeric v).isSome) = true then
    DataType.numeric
  else if (nonNull.dedup.length : ℚ) / (nonNull.length : ℚ) < 1 / 10 ∧
      nonNull.dedup.length < 50 then
    DataType.categorical
  else DataType.text

/-- Number of rows of a table (length of its first column, 0 if empty). -/
def nRows (t : Table) : ℕ := ((t.head?.map (fun c => c.cells.length)).getD 0)

/-- Row `i` of a table, as the tuple of its cells across columns. -/
def rowAt (t : Table) (i : ℕ) : List Cell := t.map (fun c => c.cells.getD i none)

/-- All rows of a table in order. -/
def rowsOf (t : Table) : List (List Cell) := (List.range (nRows t)).map (rowAt t)

/-- Keep only the rows at indices selected by the mask (row filtering,
applied column-wise as pandas boolean indexing does). -/
def filterRows (t : Table) (keep : ℕ → Bool) : Table :=
  t.map (fun c =>
    { name := c.name, dtype := c.dtype,
      cells := (c.cells.enum.filter (fun p => keep p.1)).map (fun p => p.2) })

/-- The pandas `duplicated()` mask over a row list: a row is marked when an
equal row occurred earlier. -/
def duplicatedMask : List (List Cell) → List (List Cell) → List Bool
  | _, [] => []
  | seen, r :: rest => decide (r ∈ seen) :: duplicatedMask (r :: seen) rest

/-- `df.duplicated().sum()`: the number of rows equal to an earlier row. -/
def dupRowCount (t : Table) : ℕ :=
  ((duplicatedMask [] (rowsOf t)).filter (fun b => b)).length

/-- `df.drop_duplicates(keep='first')`: drop every row equal to an earlier
row. -/
def drop_duplicates_first (t : Table) : Table :=
  let mask := duplicatedMask [] (rowsOf t)
  filterRows t (fun i => !(mask.getD i false))

/-- `df.drop_duplicates(keep='last')`: drop every row equal to a later row. -/
def drop_duplicates_last (t : Table) : Table :=
  let mask := (duplicatedMask [] (rowsOf t).reverse).reverse
  filterRows t (fun i => !(mask.getD i false))

/-- First column carrying the given name, if any (`df[name]`; pandas raises
`KeyError` when the lookup fails, which callers model as an error). -/
def findCol? (t : Table) (name : String) : Option Col :=
  t.find? (fun c => c.name == name)

/-- Whether a column with the given name exists (`name in df.columns`). -/
def hasCol (t : Table) (name : String) : Bool := (findCol? t name).isSome

/-- Replace the cells (and dtype) of every column with the given name
(`df[name] = series`). -/
def setCol (t : Table) (name : String) (d : Dtype) (cells : List Cell) : Table :=
  t.map (fun c => if c.name = name then { name := c.name, dtype := d, cells := cells } else c)

/-- Drop every column with a name in the given list (`df.drop(columns=...)`
after the request filters to present names). -/
def dropColsNamed (t : Table) (names : List String) : Table :=
  t.filter (fun c => !(names.contains c.name))

/-- The numeric reading pandas reductions use for a cell of a numeric or
boolean column. -/
def cellAsQ : Cell → Option ℚ
  | some (Val.num q) => some q
  | some (Val.bool b) => some (if b then 1 else 0)
  | _ => none

/-- `pd.api.types.is_numeric_dtype` on our dtypes (bool counts as numeric). -/
def isNumericDtype : Dtype → Bool
  | Dtype.numeric => true
  | Dtype.boolean => true
  | _ => false

/-- Parameter map attached to a suggestion or supplied as an override;
each field models one key the cleaner reads with `params.get`. -/
structure Params where
  keep : Option String
  strategy : Option String
  target_type : Option String
  operation : Option String
  case_type : Option String
  method : Option String
  lower_bound : Option ℚ
  upper_bound : Option ℚ
deriving DecidableEq

/-- The empty parameter map. -/
def Params.empty : Params := ⟨none, none, none, none, none, none, none, none⟩

/-- A cleaning suggestion (models `CleaningSuggestion` in
`app/models/dataset.py`). -/
structure CleaningSuggestion where
  id : String
  column : String
  issue_type : String
  description : String
  suggested_action : CleaningAction
  impact_level : ImpactLevel
  affected_rows : ℕ
  confidence_score : ℚ
  parameters : Params
deriving DecidableEq

/-- Generation request (models `AutoCleanRequest`). -/
structure AutoCleanRequest where
  confidence_threshold : ℚ
  max_suggestions : ℕ

/-- Apply request (models `ApplyCleaningRequest`); `custom_parameters` is the
id-keyed override map, as an association list. -/
structure ApplyCleaningRequest where
  suggestion_ids : List String
  custom_parameters : List (String × Params)

/-- Manual cleaning request (models `ManualCleaningRequest`); the two maps
are association lists in insertion order. -/
structure ManualCleaningRequest where
  remove_duplicates : Bool
  missing_value_strategies : List (String × MissingValueStrategy)
  columns_to_drop : List String
  type_conversions : List (String × DataType)

/-- Missing count of a column: `series.isnull().sum()`. -/
def missingCount (cells : List Cell) : ℕ :=
  (cells.filter (fun c => c.isNone)).length

/-- Missing percentage of a column:
`(missing_count / len(series)) * 100` over ℚ. -/
def missingPct (cells : List Cell) : ℚ :=
  ((missingCount cells : ℚ) / (cells.length : ℚ)) * 100

/-- Direct translation of `AICleaningAgent.analyze_missing_values`
(`app/services/ai_agent.py`, lines 14-83), over the named column the Python
code selects with `df[column]`.  The `uuid.uuid4()` identifier and the
`f"{x:.1f}"` float rendering come from the oracle. -/
def analyze_missing_values (O : PandasOracle) (c : Col) :
    List CleaningSuggestion :=
  let missing_count := missingCount c.cells
  let missing_percentage := missingPct c.cells
  if missing_count = 0 then []
  else
    let data_type := detect_data_type O c.dtype c.cells
    if 70 < missing_percentage then
      [{ id := O.uuid4, column := c.name, issue_type := "High Missing Values",
         description := "Column \x27" ++ c.name ++ "\x27 has " ++
           O.fmtPct missing_percentage ++
           "% missing values. Consider dropping this column.",
         suggested_action := CleaningAction.drop_missing,
         impact_level := ImpactLevel.high, affected_rows := missing_count,
         confidence_score := 9 / 10,
         parameters := { Params.empty with strategy := some "drop_column" } }]
    else if 20 < missing_percentage then
      if data_type = DataType.numeric then
        let strat := if 1 < O.skewQ c.cells then "median" else "mean"
        [{ id := O.uuid4, column := c.name, issue_type := "Missing Values",
           description := "Fill " ++ toString missing_count ++
             " missing values in \x27" ++ c.name ++ "\x27 with " ++ strat ++ ".",
           suggested_action := CleaningAction.fill_missing,
           impact_level := ImpactLevel.medium, affected_rows := missing_count,
           confidence_score := 8 / 10,
           parameters := { Params.empty with strategy := some strat } }]
      else if data_type = DataType.categorical then
        [{ id := O.uuid4, column := c.name, issue_type := "Missing Values",
           description := "Fill " ++ toString missing_count ++
             " missing values in \x27" ++ c.name ++
             "\x27 with mode (most frequent value).",
           suggested_action := CleaningAction.fill_missing,
           impact_level := ImpactLevel.medium, affected_rows := missing_count,
           confidence_score := 7 / 10,
           parameters := { Params.empty with strategy := some "mode" } }]
      else []
    else if 0 < missing_percentage then
      [{ id := O.uuid4, column := c.name, issue_type := "Missing Values",
         description := "Drop " ++ toString missing_count ++
           " rows with missing values in \x27" ++ c.name ++ "\x27.",
         suggested_action := CleaningAction.drop_missing,
         impact_level := ImpactLevel.low, affected_rows := missing_count,
         confidence_score := 9 / 10,
         parameters := { Params.empty with strategy := some "drop_rows" } }]
    else []

/-- Direct translation of `AICleaningAgent.analyze_duplicates`
(`app/services/ai_agent.py`, lines 85-105). -/
def analyze_duplicates (O : PandasOracle) (df : Table) :
    List CleaningSuggestion :=
  let duplicate_count := dupRowCount df
  if 0 < duplicate_count then
    let impact :=
      if (nRows df : ℚ) * (1 / 10) < (duplicate_count : ℚ) then ImpactLevel.high
      else ImpactLevel.medium
    [{ id := O.uuid4, column := "all_columns", issue_type := "Duplicate Rows",
       description := "Found " ++ toString duplicate_count ++
         " duplicate rows. Removing duplicates will improve data quality.",
       suggested_action := CleaningAction.drop_duplicates,
       impact_level := impact, affected_rows := duplicate_count,
       confidence_score := 95 / 100,
       parameters := { Params.empty with keep := some "first" } }]
  else []

/-- The numeric rank of an impact level used by both sort sites:
`{"high": 3, "medium": 2, "low": 1}`. -/
def impact_order : ImpactLevel → ℕ
  | ImpactLevel.high => 3
  | ImpactLevel.medium => 2
  | ImpactLevel.low => 1

/-- The total preorder realized by Python's stable
`sort(key=lambda x: (impact_order[x.impact_level], x.confidence_score),
reverse=True)`: `a` may come before `b` iff `a`'s key is at least `b`'s in
the lexicographic order. -/
def rankGe (a b : CleaningSuggestion) : Prop :=
  impact_order b.impact_level < impact_order a.impact_level ∨
    (impact_order a.impact_level = impact_order b.impact_level ∧
      b.confidence_score ≤ a.confidence_score)

instance : DecidableRel rankGe := fun a b => by
  unfold rankGe; exact inferInstance

theorem rankGe_total : ∀ a b, rankGe a b ∨ rankGe b a := by
  intro a b
  unfold rankGe
  rcases lt_trichotomy (impact_order a.impact_level) (impact_order b.impact_level)
    with h | h | h
  · rcases le_total a.confidence_score b.confidence_score with hc | hc
    · exact Or.inr (Or.inl h)
    · exact Or.inr (Or.inl h)
  · rcases le_total a.confidence_score b.confidence_score with hc | hc
    · exact Or.inr (Or.inr ⟨h.symm, hc⟩)
    · exact Or.inl (Or.inr ⟨h, hc⟩)
  · exact Or.inl (Or.inl h)

theorem rankGe_trans : ∀ a b c, rankGe a b → rankGe b c → rankGe a c := by
  intro a b c hab hbc
  unfold rankGe at *
  rcases hab with h1 | ⟨h1, h1c⟩ <;> rcases hbc with h2 | ⟨h2, h2c⟩
  · exact Or.inl (h2.trans h1)
  · exact Or.inl (h2 ▸ h1)
  · exact Or.inl (h1 ▸ h2)
  · exact Or.inr ⟨h1.trans h2, h2c.trans h1c⟩

instance : IsTotal CleaningSuggestion rankGe := ⟨rankGe_total⟩

instance : IsTrans CleaningSuggestion rankGe := ⟨fun _ _ _ => rankGe_trans _ _ _⟩

/-- The filter-then-stable-sort stage of
`AICleaningAgent.generate_suggestions` (lines 310-321): keep suggestions
with `confidence_score >= confidence_threshold`, then sort descending by
(impact rank, confidence) with Python's stable sort. -/
def sorted_filtered (l : List CleaningSuggestion) (threshold : ℚ) :
    List CleaningSuggestion :=
  List.insertionSort rankGe
    (l.filter (fun s => decide (threshold ≤ s.confidence_score)))

/-- The full ranker stage of `AICleaningAgent.generate_suggestions`
(lines 310-324): filter by confidence, stable-sort descending, truncate to
`max_suggestions`. -/
def rank_suggestions (l : List CleaningSuggestion) (threshold : ℚ)
    (maxCount : ℕ) : List CleaningSuggestion :=
  (sorted_filtered l threshold).take maxCount

/-- `fillna(v)` on a column: replace nulls by `v`. -/
def fillnaCells (cells : List Cell) (v : Val) : List Cell :=
  cells.map (fun x => some (x.getD v))

/-- `fillna(method='ffill')`: carry the last non-null value forward. -/
def ffillCells : Option Val → List Cell → List Cell
  | _, [] => []
  | last, none :: rest => last :: ffillCells last rest
  | _, some v :: rest => some v :: ffillCells (some v) rest

/-- Direct translation of `DataCleaner._handle_missing_values`
(`app/services/cleaner.py`, lines 39-64). -/
def handle_missing_values (O : PandasOracle) (df : Table) (column : String)
    (strategy : MissingValueStrategy) : Table :=
  match findCol? df column with
  | none => df
  | some c =>
    match strategy with
    | MissingValueStrategy.drop =>
        filterRows df (fun i => (c.cells.getD i none).isSome)
    | MissingValueStrategy.mean =>
        if isNumericDtype c.dtype then
          let nn := c.cells.filterMap cellAsQ
          if nn.isEmpty then df
          else setCol df column c.dtype (fillnaCells c.cells (Val.num (O.meanQ nn)))
        else df
    | MissingValueStrategy.median =>
        if isNumericDtype c.dtype then
          let nn := c.cells.filterMap cellAsQ
          if nn.isEmpty then df
          else setCol df column c.dtype (fillnaCells c.cells (Val.num (O.medianQ nn)))
        else df
    | MissingValueStrategy.mode =>
        match O.modeVals (c.cells.filterMap id) with
        | [] => df
        | v :: _ => setCol df column c.dtype (fillnaCells c.cells v)
    | MissingValueStrategy.forward_fill =>
        setCol df column c.dtype (ffillCells none c.cells)
    | MissingValueStrategy.backward_fill =>
        setCol df column c.dtype ((ffillCells none c.cells.reverse).reverse)

/-- The fixed boolean-literal mapping of `_convert_column_type`'s
`bool_map` (string keys only). -/
def boolMap? : Val → Option Bool
  | Val.str "true" => some true
  | Val.str "false" => some false
  | Val.str "True" => some true
  | Val.str "False" => some false
  | Val.str "1" => some true
  | Val.str "0" => some false
  | Val.str "yes" => some true
  | Val.str "no" => some false
  | Val.str "Yes" => some true
  | Val.str "No" => some false
  | _ => none

/-- Net effect of `.map(bool_map).fillna(df[column])` on one cell: mapped
literals become booleans, everything else (nulls included) is unchanged. -/
def boolMapCell (x : Cell) : Cell :=
  match x with
  | none => none
  | some v =>
    match boolMap? v with
    | some b => some (Val.bool b)
    | none => some v

/-- Direct translation of `DataCleaner._convert_column_type`
(`app/services/cleaner.py`, lines 66-97); the numeric/datetime paths use
`errors='coerce'`, so unparsable values become null. -/
def convert_column_type (O : PandasOracle) (df : Table) (column : String)
    (target : DataType) : Table :=
  match findCol? df column with
  | none => df
  | some c =>
    match target with
    | DataType.numeric =>
        setCol df column Dtype.numeric
          (c.cells.map (fun x => x.bind (fun v => (O.toNumeric v).map Val.num)))
    | DataType.datetime =>
        setCol df column Dtype.datetime
          (c.cells.map (fun x => x.bind (fun v => (O.toDatetime v).map Val.time)))
    | DataType.categorical => setCol df column Dtype.category c.cells
    | DataType.boolean => setCol df column Dtype.object (c.cells.map boolMapCell)
    | DataType.text =>
        setCol df column Dtype.object
          (c.cells.map (fun x => some (Val.str (pyStr O x))))

/-- Direct translation of `DataCleaner.apply_manual_cleaning`
(`app/services/cleaner.py`, lines 13-37): duplicates, then column drops
(restricted to present names), then per-column missing-value strategies,
then per-column type conversions, each strategy/conversion skipped when its
column is absent. -/
def apply_manual_cleaning (O : PandasOracle) (df : Table)
    (req : ManualCleaningRequest) : Table :=
  let t1 := if req.remove_duplicates then drop_duplicates_first df else df
  let t2 :=
    if req.columns_to_drop.isEmpty then t1
    else dropColsNamed t1 (req.columns_to_drop.filter (fun n => hasCol t1 n))
  let t3 := req.missing_value_strategies.foldl
    (fun t p => if hasCol t p.1 then handle_missing_values O t p.1 p.2 else t) t2
  req.type_conversions.foldl
    (fun t p => if hasCol t p.1 then convert_column_type O t p.1 p.2 else t) t3

/-- Characters admitted by the email regex before the `@`:
`[a-zA-Z0-9._%+-]`. -/
def isLocalChar (c : Char) : Bool :=
  c.isAlphanum || c == '.' || c == '_' || c == '%' || c == '+' || c == '-'

/-- Characters admitted by the email regex between `@` and the final dot:
`[a-zA-Z0-9.-]`. -/
def isDomainChar (c : Char) : Bool :=
  c.isAlphanum || c == '.' || c == '-'

/-- Whether the part after the `@` matches `[a-zA-Z0-9.-]+\.[a-zA-Z]{2,}$`:
the maximal alphabetic suffix has length at least 2, is preceded by a dot,
and everything before that dot is a non-empty run of domain characters. -/
def emailDomainOk (cs : List Char) : Bool :=
  let t := (cs.reverse.takeWhile Char.isAlpha).length
  decide (2 ≤ t) && decide (t + 2 ≤ cs.length) &&
    (cs.getD (cs.length - t - 1) ' ' == '.') &&
    (cs.take (cs.length - t - 1)).all isDomainChar

/-- The language of the cleaner's email regex
`^[a-zA-Z0-9._%+-]+@[a-zA-Z0-9.-]+\.[a-zA-Z]{2,}$` as a decidable string
predicate. -/
def emailMatch (s : String) : Bool :=
  let cs := s.toList
  let l := cs.takeWhile (fun c => c != '@')
  !l.isEmpty && l.all isLocalChar && (cs.getD l.length ' ' == '@') &&
    emailDomainOk (cs.drop (l.length + 1))

/-- Removal of every non-digit character:
`.str.replace(r'[^\d]', '', regex=True)`. -/
def digitsOnly (s : String) : String :=
  String.mk (s.toList.filter Char.isDigit)

/-- Insertion of the two dashes of the `NNN-NNN-NNNN` format. -/
def dashFormat (s : String) : String :=
  String.mk ((s.toList.take 3) ++ '-' :: ((s.toList.drop 3).take 3) ++
    '-' :: (s.toList.drop 6))

/-- The regex reformat `(\d{3})(\d{3})(\d{4})` to `\1-\2-\3`, applied
exactly to 10-character digit strings by the cleaner's length mask. -/
def formatPhone (s : String) : String :=
  if s.length = 10 then dashFormat s else s

/-- The pandas comparison `(cell >= lb) & (cell <= ub)` on one cell: null
compares false, numbers and booleans compare numerically, strings and
timestamps raise a `TypeError` against a float bound. -/
def cellCmpBounds (lb ub : ℚ) : Cell → Except String Bool
  | none => Except.ok false
  | some (Val.num q) => Except.ok (decide (lb ≤ q ∧ q ≤ ub))
  | some (Val.bool b) =>
      Except.ok (decide (lb ≤ (if b then (1 : ℚ) else 0) ∧
        (if b then (1 : ℚ) else 0) ≤ ub))
  | some (Val.str _) => Except.error "TypeError"
  | some (Val.time _) => Except.error "TypeError"

/-- The whole-column bounds comparison: the row mask, or the first raised
`TypeError` if any cell is incomparable. -/
def cmpMask (lb ub : ℚ) : List Cell → Except String (List Bool)
  | [] => Except.ok []
  | x :: xs =>
    match cellCmpBounds lb ub x, cmpMask lb ub xs with
    | Except.ok b, Except.ok bs => Except.ok (b :: bs)
    | Except.error e, _ => Except.error e
    | Except.ok _, Except.error e => Except.error e

/-- One iteration body of the `apply_ai_suggestions` loop
(`app/services/cleaner.py`, lines 119-192): the transformation selected by
the suggestion's action and parameters, as a fallible step.  `KeyError`
models a failed `df[column]` lookup, which the Python `except` swallows. -/
def applyOne (O : PandasOracle) (t : Table) (s : CleaningSuggestion)
    (params : Params) : Except String Table :=
  match s.suggested_action with
  | CleaningAction.drop_duplicates =>
      let k := params.keep.getD "first"
      if k = "first" then Except.ok (drop_duplicates_first t)
      else if k = "last" then Except.ok (drop_duplicates_last t)
      else Except.error "ValueError"
  | CleaningAction.fill_missing =>
      let strat := params.strategy.getD "mean"
      if strat = "mean" then
        match findCol? t s.column with
        | none => Except.error "KeyError"
        | some c =>
          if isNumericDtype c.dtype then
            let nn := c.cells.filterMap cellAsQ
            if nn.isEmpty then Except.ok t
            else Except.ok (setCol t s.column c.dtype
              (fillnaCells c.cells (Val.num (O.meanQ nn))))
          else Except.ok t
      else if strat = "median" then
        match findCol? t s.column with
        | none => Except.error "KeyError"
        | some c =>
          if isNumericDtype c.dtype then
            let nn := c.cells.filterMap cellAsQ
            if nn.isEmpty then Except.ok t
            else Except.ok (setCol t s.column c.dtype
              (fillnaCells c.cells (Val.num (O.medianQ nn))))
          else Except.ok t
      else if strat = "mode" then
        match findCol? t s.column with
        | none => Except.error "KeyError"
        | some c =>
          match O.modeVals (c.cells.filterMap id) with
          | [] => Except.ok t
          | v :: _ => Except.ok (setCol t s.column c.dtype (fillnaCells c.cells v))
      else Except.ok t
  | CleaningAction.drop_missing =>
      if params.strategy = some "drop_column" then
        if hasCol t s.column then
          Except.ok (t.filter (fun c => c.name ≠ s.column))
        else Except.error "KeyError"
      else
        match findCol? t s.column with
        | none => Except.error "KeyError"
        | some c => Except.ok (filterRows t (fun i => (c.cells.getD i none).isSome))
  | CleaningAction.convert_type =>
      let op := params.operation
      if op = some "standardize_case" then
        let ct := params.case_type.getD "lower"
        if ct = "lower" then
          match findCol? t s.column with
          | none => Except.error "KeyError"
          | some c => Except.ok (setCol t s.column Dtype.object
              (c.cells.map (fun x => some (Val.str (String.toLower (pyStr O x))))))
        else if ct = "upper" then
          match findCol? t s.column with
          | none => Except.error "KeyError"
          | some c => Except.ok (setCol t s.column Dtype.object
              (c.cells.map (fun x => some (Val.str (String.toUpper (pyStr O x))))))
        else if ct = "title" then
          match findCol? t s.column with
          | none => Except.error "KeyError"
          | some c => Except.ok (setCol t s.column Dtype.object
              (c.cells.map (fun x => some (Val.str (O.titleCase (pyStr O x))))))
        else Except.ok t
      else if op = some "trim_whitespace" then
        match findCol? t s.column with
        | none => Except.error "KeyError"
        | some c => Except.ok (setCol t s.column Dtype.object
            (c.cells.map (fun x => some (Val.str (String.trim (pyStr O x))))))
      else if op = some "validate_emails" then
        match findCol? t s.column with
        | none => Except.error "KeyError"
        | some c => Except.ok (setCol t s.column c.dtype
            (c.cells.map (fun x => if emailMatch (pyStr O x) then x else none)))
      else if op = some "standardize_phones" then
        match findCol? t s.column with
        | none => Except.error "KeyError"
        | some c => Except.ok (setCol t s.column Dtype.object
            (c.cells.map (fun x =>
              some (Val.str (formatPhone (digitsOnly (pyStr O x)))))))
      else if params.target_type = some "numeric" then
        match findCol? t s.column with
        | none => Except.error "KeyError"
        | some c => Except.ok (setCol t s.column Dtype.numeric
            (c.cells.map (fun x => x.bind (fun v => (O.toNumeric v).map Val.num))))
      else if params.target_type = some "datetime" then
        match findCol? t s.column with
        | none => Except.error "KeyError"
        | some c => Except.ok (setCol t s.column Dtype.datetime
            (c.cells.map (fun x => x.bind (fun v => (O.toDatetime v).map Val.time))))
      else Except.ok t
  | CleaningAction.remove_outliers =>
      if params.method = some "iqr" then
        match params.lower_bound, params.upper_bound with
        | some lb, some ub =>
          match findCol? t s.column with
          | none => Except.error "KeyError"
          | some c =>
            match cmpMask lb ub c.cells with
            | Except.error e => Except.error e
            | Except.ok mask => Except.ok (filterRows t (fun i => mask.getD i false))
        | _, _ => Except.ok t
      else Except.ok t

/-- The per-suggestion parameter map:
`request.custom_parameters.get(suggestion.id, suggestion.parameters)`. -/
def paramsFor (req : ApplyCleaningRequest) (s : CleaningSuggestion) : Params :=
  match req.custom_parameters.find? (fun p => p.1 == s.id) with
  | some p => p.2
  | none => s.parameters

/-- The stable descending impact order used before application:
`sort(key=lambda x: impact_order[x.impact_level.value], reverse=True)`. -/
def impactGe (a b : CleaningSuggestion) : Prop :=
  impact_order b.impact_level ≤ impact_order a.impact_level

instance : DecidableRel impactGe := fun a b => by
  unfold impactGe; exact inferInstance

/-- The `for suggestion in selected_suggestions` loop with its
`try/except ... continue`: a failing step leaves the table unchanged and
processing continues. -/
def applyLoop (O : PandasOracle) (req : ApplyCleaningRequest) :
    Table → List CleaningSuggestion → Table
  | t, [] => t
  | t, s :: rest =>
    match applyOne O t s (paramsFor req s) with
    | Except.ok t2 => applyLoop O req t2 rest
    | Except.error _ => applyLoop O req t rest

/-- The selected suggestions in request order:
`[s for s in suggestions if s.id in request.suggestion_ids]`. -/
def selectSuggestions (suggestions : List CleaningSuggestion)
    (req : ApplyCleaningRequest) : List CleaningSuggestion :=
  suggestions.filter (fun s => req.suggestion_ids.contains s.id)

/-- Direct translation of `DataCleaner.apply_ai_suggestions`
(`app/services/cleaner.py`, lines 99-198): select the requested
suggestions, stable-sort them by descending impact, then run the
failure-tolerant application loop. -/
def apply_ai_suggestions (O : PandasOracle) (df : Table)
    (suggestions : List CleaningSuggestion) (req : ApplyCleaningRequest) :
    Table :=
  applyLoop O req df (List.insertionSort impactGe (selectSuggestions suggestions req))

/-- The sub-list of suggestions whose application step actually succeeded,
in application order (the Python code does not record this set; it is
defined here to state what the API response would need). -/
def succeededList (O : PandasOracle) (req : ApplyCleaningRequest) :
    Table → List CleaningSuggestion → List CleaningSuggestion
  | _, [] => []
  | t, s :: rest =>
    match applyOne O t s (paramsFor req s) with
    | Except.ok t2 => s :: succeededList O req t2 rest
    | Except.error _ => succeededList O req t rest

/-- The suggestions whose transformations succeeded over a full
`apply_ai_suggestions` run. -/
def applied_succeeded (O : PandasOracle) (df : Table)
    (suggestions : List CleaningSuggestion) (req : ApplyCleaningRequest) :
    List CleaningSuggestion :=
  succeededList O req df
    (List.insertionSort impactGe (selectSuggestions suggestions req))

/-- The applied-suggestions list the `/clean/apply/{dataset_id}` endpoint
reports (`app/api/clean.py`, line 91):
`[s for s in suggestions if s.id in request.suggestion_ids]`. -/
def applied_suggestions_report (suggestions : List CleaningSuggestion)
    (req : ApplyCleaningRequest) : List CleaningSuggestion :=
  suggestions.filter (fun s => req.suggestion_ids.contains s.id)

/-- Whether a cell is null or numeric (the shape under which the outlier
mask is exception-free). -/
def isNumOrNull : Cell → Bool
  | none => true
  | some (Val.num _) => true
  | _ => false

/-- The successful per-cell outlier decision: kept iff the cell is a number
within `[lb, ub]`; a null satisfies neither comparison and is dropped. -/
def boundsKeep (lb ub : ℚ) : Cell → Bool
  | some (Val.num q) => decide (lb ≤ q ∧ q ≤ ub)
  | _ => false

/-- A concrete oracle used by witnesses (any behaviour is acceptable since
the theorems quantify over the oracle). -/
def O0 : PandasOracle :=
  { showNum := fun q => toString q.num, showTime := fun t => toString t,
    toNumeric := fun v => match v with | Val.num q => some q | _ => none,
    toDatetime := fun v => match v with | Val.time t => some t | _ => none,
    meanQ := fun l => l.headD 0, medianQ := fun l => l.headD 0,
    modeVals := fun l => l, skewQ := fun _ => 0, titleCase := fun s => s,
    fmtPct := fun _ => "", uuid4 := "w-id" }

/-- Witness table: one numeric column `a` with a duplicated value. -/
def wTable : Table :=
  [{ name := "a", dtype := Dtype.numeric,
     cells := [some (Val.num 5), some (Val.num 5), none] }]

/-- Witness suggestion targeting a column absent from `wTable`, so its
application raises a `KeyError` and is skipped. -/
def wFailSug : CleaningSuggestion :=
  { id := "s1", column := "zz", issue_type := "", description := "",
    suggested_action := CleaningAction.fill_missing,
    impact_level := ImpactLevel.medium, affected_rows := 0,
    confidence_score := 1,
    parameters := { Params.empty with strategy := some "mean" } }

/-- Witness apply request selecting `wFailSug` with no overrides. -/
def wReq : ApplyCleaningRequest := { suggestion_ids := ["s1"], custom_parameters := [] }

/-- Witness suggestion used by the ranker witness. -/
def wRankSug : CleaningSuggestion :=
  { id := "r1", column := "a", issue_type := "", description := "",
    suggested_action := CleaningAction.drop_duplicates,
    impact_level := ImpactLevel.high, affected_rows := 1,
    confidence_score := 1, parameters := Params.empty }

/-- Witness column for the missing-values analyzer: 50% missing numeric. -/
def wMissCol : Col :=
  { name := "m", dtype := Dtype.numeric, cells := [some (Val.num 5), none] }

/-- Witness email column: one valid address, one address-free string, one
null. -/
def wEmailCol : Col :=
  { name := "e", dtype := Dtype.object,
    cells := [some (Val.str "a@b.co"), some (Val.str "oops"), none] }

/-- Witness email-validation suggestion for column `e`. -/
def wEmailSug : CleaningSuggestion :=
  { id := "s2", column := "e", issue_type := "", description := "",
    suggested_action := CleaningAction.convert_type,
    impact_level := ImpactLevel.medium, affected_rows := 1,
    confidence_score := 1,
    parameters := { Params.empty with operation := some "validate_emails" } }

/-- Witness phone column: a 10-digit value, a formatted value, a null. -/
def wPhoneCol : Col :=
  { name := "p", dtype := Dtype.object,
    cells := [some (Val.str "5551234567"), some (Val.str "(555) 123-4567"),
      none] }

/-- Witness phone-standardization suggestion for column `p`. -/
def wPhoneSug : CleaningSuggestion :=
  { id := "s3", column := "p", issue_type := "", description := "",
    suggested_action := CleaningAction.convert_type,
    impact_level := ImpactLevel.low, affected_rows := 2,
    confidence_score := 1,
    parameters := { Params.empty with operation := some "standardize_phones" } }

/-- Witness numeric column with a null and an out-of-bounds value. -/
def wOutCol : Col :=
  { name := "q", dtype := Dtype.numeric,
    cells := [some (Val.num 5), none, some (Val.num 50)] }

/-- Witness outlier-removal suggestion with bounds `[0, 10]`. -/
def wOutSug : CleaningSuggestion :=
  { id := "s4", column := "q", issue_type := "", description := "",
    suggested_action := CleaningAction.remove_outliers,
    impact_level := ImpactLevel.low, affected_rows := 1,
    confidence_score := 1,
    parameters := { Params.empty with
      method := some "iqr", lower_bound := some 0, upper_bound := some 10 } }

/-- Witness manual request dropping column `x` while also giving `x` a
missing-value strategy. -/
def wManualReq : ManualCleaningRequest :=
  { remove_duplicates := false,
    missing_value_strategies := [("x", MissingValueStrategy.mean)],
    columns_to_drop := ["x"], type_conversions := [] }

/-- Witness table owning a column `x` plus another column. -/
def wManualTable : Table :=
  [{ name := "x", dtype := Dtype.numeric, cells := [some (Val.num 1), none] },
   { name := "y", dtype := Dtype.object,
     cells := [some (Val.str "u"), some (Val.str "v")] }]

theorem duplicatedMask_length (rows : List (List Cell)) :
    ∀ seen, (duplicatedMask seen rows).length = rows.length := by
  induction rows with
  | nil => intro seen; rfl
  | cons r rest ih => intro seen; simp [duplicatedMask, ih]

theorem duplicatedMask_getD :
    ∀ (rows seen : List (List Cell)) (i : ℕ), i < rows.length →
    ((duplicatedMask seen rows).getD i false = true ↔
      rows.getD i [] ∈ seen ∨ ∃ j, j < i ∧ rows.getD j [] = rows.getD i [])
  | [], _, i, hi => absurd hi (by simp)
  | r :: rest, seen, 0, _ => by
    simp [duplicatedMask]
  | r :: rest, seen, i + 1, hi => by
    have ih := duplicatedMask_getD rest (r :: seen) i (by simpa using hi)
    simp only [duplicatedMask, List.getD_cons_succ]
    rw [ih]
    constructor
    · rintro (h | ⟨j, hj, hej⟩)
      · rcases List.mem_cons.mp h with h | h
        · exact Or.inr ⟨0, Nat.succ_pos _, h.symm⟩
        · exact Or.inl h
      · exact Or.inr ⟨j + 1, Nat.succ_lt_succ hj, hej⟩
    · rintro (h | ⟨j, hj, hej⟩)
      · exact Or.inl (List.mem_cons_of_mem _ h)
      · cases j with
        | zero =>
          refine Or.inl ?_
          rw [← (by simpa using hej : r = rest.getD i [])]
          exact List.mem_cons_self _ _
        | succ k =>
          exact Or.inr ⟨k, Nat.lt_of_succ_lt_succ hj, by simpa using hej⟩

theorem rowsOf_length (df : Table) : (rowsOf df).length = nRows df := by
  simp [rowsOf]

theorem rowsOf_getD (df : Table) (i : ℕ) (hi : i < nRows df) :
    (rowsOf df).getD i [] = rowAt df i := by
  unfold rowsOf
  rw [List.getD_eq_getElem?_getD, List.getElem?_map, List.getElem?_range hi]
  rfl

/-- C4: for a table with `N` rows of which `M` are exact duplicates of an
earlier row (all-but-first-occurrence count, the `duplicated()` mask): with
`M = 0` the duplicate analyzer emits nothing; with `M > 0` it emits exactly
one suggestion with `affected_rows = M`, action `drop_duplicates` keeping
the first occurrence, confidence 0.95, and impact high iff `M > 0.1 * N`,
else medium. -/
theorem analyze_duplicates_spec (O : PandasOracle) (df : Table) :
    (∀ i, i < nRows df →
      ((duplicatedMask [] (rowsOf df)).getD i false = true ↔
        ∃ j, j < i ∧ rowAt df j = rowAt df i)) ∧
    (dupRowCount df = 0 → analyze_duplicates O df = []) ∧
    (0 < dupRowCount df →
      ∃ s, analyze_duplicates O df = [s] ∧
        s.affected_rows = dupRowCount df ∧
        s.suggested_action = CleaningAction.drop_duplicates ∧
        s.parameters.keep = some "first" ∧
        s.confidence_score = 95 / 100 ∧
        (s.impact_level = ImpactLevel.high ↔
          (nRows df : ℚ) * (1 / 10) < (dupRowCount df : ℚ)) ∧
        (s.impact_level = ImpactLevel.high ∨
          s.impact_level = ImpactLevel.medium)) := by
  refine ⟨?_, ?_, ?_⟩
  · intro i hi
    rw [duplicatedMask_getD (rowsOf df) [] i (by rwa [rowsOf_length]),
      rowsOf_getD df i hi]
    constructor
    · rintro (h | ⟨j, hj, hej⟩)
      · exact absurd h (List.not_mem_nil _)
      · exact ⟨j, hj, by rwa [rowsOf_getD df j (hj.trans hi)] at hej⟩
    · rintro ⟨j, hj, hej⟩
      exact Or.inr ⟨j, hj, by rwa [rowsOf_getD df j (hj.trans hi)]⟩
  · intro h
    unfold analyze_duplicates
    simp [h]
  · intro h
    unfold analyze_duplicates
    rw [if_pos h]
    by_cases himp : (nRows df : ℚ) * (1 / 10) < (dupRowCount df : ℚ)
    · rw [if_pos himp]
      exact ⟨_, rfl, rfl, rfl, rfl, rfl, iff_of_true rfl himp, Or.inl rfl⟩
    · rw [if_neg himp]
      exact ⟨_, rfl, rfl, rfl, rfl, rfl, iff_of_false (by simp) himp, Or.inr rfl⟩

theorem missingCount_le_length (cells : List Cell) :
    missingCount cells ≤ cells.length :=
  List.length_filter_le _ _

theorem missingPct_eq_zero_iff (cells : List Cell) :
    missingPct cells = 0 ↔ missingCount cells = 0 := by
  unfold missingPct
  constructor
  · intro h
    by_cases hl : cells.length = 0
    · have := missingCount_le_length cells
      omega
    · rcases mul_eq_zero.mp h with h2 | h2
      · rcases div_eq_zero_iff.mp h2 with h3 | h3
        · exact_mod_cast h3
        · exact absurd (Nat.cast_eq_zero.mp h3) hl
      · norm_num at h2
  · intro h
    rw [h]
    simp

theorem missingPct_ne_zero_count (c : Col) (h : missingPct c.cells ≠ 0) :
    ¬ missingCount c.cells = 0 := fun hm =>
  h ((missingPct_eq_zero_iff c.cells).mpr hm)

/-- C3: for a column with missing percentage `p`: `p = 0` emits nothing;
`p > 70` emits exactly one drop-column suggestion (impact high, confidence
0.9); `20 < p <= 70` emits an imputation suggestion for numeric columns
(median iff skew > 1.0 else mean, impact medium, confidence 0.8) or
categorical columns (mode, impact medium, confidence 0.7) and nothing for
other detected types; `0 < p <= 20` emits exactly one drop-rows suggestion
(impact low, confidence 0.9); every emitted suggestion's `affected_rows`
is the missing count. -/
theorem analyze_missing_values_spec (O : PandasOracle) (c : Col) :
    (missingPct c.cells = 0 → analyze_missing_values O c = []) ∧
    (70 < missingPct c.cells →
      ∃ s, analyze_missing_values O c = [s] ∧
        s.suggested_action = CleaningAction.drop_missing ∧
        s.parameters.strategy = some "drop_column" ∧
        s.impact_level = ImpactLevel.high ∧
        s.confidence_score = 9 / 10 ∧
        s.affected_rows = missingCount c.cells) ∧
    (20 < missingPct c.cells → missingPct c.cells ≤ 70 →
      detect_data_type O c.dtype c.cells = DataType.numeric →
      ∃ s, analyze_missing_values O c = [s] ∧
        s.suggested_action = CleaningAction.fill_missing ∧
        s.parameters.strategy =
          some (if 1 < O.skewQ c.cells then "median" else "mean") ∧
        s.impact_level = ImpactLevel.medium ∧
        s.confidence_score = 8 / 10 ∧
        s.affected_rows = missingCount c.cells) ∧
    (20 < missingPct c.cells → missingPct c.cells ≤ 70 →
      detect_data_type O c.dtype c.cells = DataType.categorical →
      ∃ s, analyze_missing_values O c = [s] ∧
        s.suggested_action = CleaningAction.fill_missing ∧
        s.parameters.strategy = some "mode" ∧
        s.impact_level = ImpactLevel.medium ∧
        s.confidence_score = 7 / 10 ∧
        s.affected_rows = missingCount c.cells) ∧
    (20 < missingPct c.cells → missingPct c.cells ≤ 70 →
      detect_data_type O c.dtype c.cells ≠ DataType.numeric →
      detect_data_type O c.dtype c.cells ≠ DataType.categorical →
      analyze_missing_values O c = []) ∧
    (0 < missingPct c.cells → missingPct c.cells ≤ 20 →
      ∃ s, analyze_missing_values O c = [s] ∧
        s.suggested_action = CleaningAction.drop_missing ∧
        s.parameters.strategy = some "drop_rows" ∧
        s.impact_level = ImpactLevel.low ∧
        s.confidence_score = 9 / 10 ∧
        s.affected_rows = missingCount c.cells) ∧
    (∀ s ∈ analyze_missing_values O c,
      s.affected_rows = missingCount c.cells) := by
  refine ⟨?_, ?_, ?_, ?_, ?_, ?_, ?_⟩
  · intro h
    have hm : missingCount c.cells = 0 := (missingPct_eq_zero_iff c.cells).mp h
    simp [analyze_missing_values, hm]
  · intro h70
    have hm := missingPct_ne_zero_count c (by intro h0; rw [h0] at h70; norm_num at h70)
    simp only [analyze_missing_values, if_neg hm, if_pos h70]
    exact ⟨_, rfl, rfl, rfl, rfl, rfl, rfl⟩
  · intro h20 h70 hdt
    have hm := missingPct_ne_zero_count c (by intro h0; rw [h0] at h20; norm_num at h20)
    have h70n : ¬ 70 < missingPct c.cells := not_lt.mpr h70
    simp only [analyze_missing_values, if_neg hm, if_neg h70n, if_pos h20, hdt,
      if_pos rfl]
    exact ⟨_, rfl, rfl, rfl, rfl, rfl, rfl⟩
  · intro h20 h70 hdt
    have hm := missingPct_ne_zero_count c (by intro h0; rw [h0] at h20; norm_num at h20)
    have h70n : ¬ 70 < missingPct c.cells := not_lt.mpr h70
    have hnum : detect_data_type O c.dtype c.cells ≠ DataType.numeric := by
      rw [hdt]; intro h; cases h
    simp only [analyze_missing_values, if_neg hm, if_neg h70n, if_pos h20,
      if_neg hnum, hdt, if_pos rfl]
    exact ⟨_, rfl, rfl, rfl, rfl, rfl, rfl⟩
  · intro h20 h70 hnum hcat
    have hm := missingPct_ne_zero_count c (by intro h0; rw [h0] at h20; norm_num at h20)
    have h70n : ¬ 70 < missingPct c.cells := not_lt.mpr h70
    simp only [analyze_missing_values, if_neg hm, if_neg h70n, if_pos h20,
      if_neg hnum, if_neg hcat]
  · intro h0 h20
    have hm := missingPct_ne_zero_count c (by intro hz; rw [hz] at h0; norm_num at h0)
    have h70n : ¬ 70 < missingPct c.cells := by
      intro h; exact absurd (h20.trans_lt' h) (by norm_num)
    have h20n : ¬ 20 < missingPct c.cells := not_lt.mpr h20
    simp only [analyze_missing_values, if_neg hm, if_neg h70n, if_neg h20n,
      if_pos h0]
    exact ⟨_, rfl, rfl, rfl, rfl, rfl, rfl⟩
  · intro s hs
    by_cases hm : missingCount c.cells = 0
    · simp [analyze_missing_values, hm] at hs
    · by_cases h70 : 70 < missingPct c.cells
      · simp only [analyze_missing_values, if_neg hm, if_pos h70,
          List.mem_singleton] at hs
        subst hs; rfl
      · by_cases h20 : 20 < missingPct c.cells
        · by_cases hdt : detect_data_type O c.dtype c.cells = DataType.numeric
          · simp only [analyze_missing_values, if_neg hm, if_neg h70, if_pos h20,
              if_pos hdt, List.mem_singleton] at hs
            subst hs; rfl
          · by_cases hdc : detect_data_type O c.dtype c.cells = DataType.categorical
            · simp only [analyze_missing_values, if_neg hm, if_neg h70, if_pos h20,
                if_neg hdt, if_pos hdc, List.mem_singleton] at hs
              subst hs; rfl
            · simp only [analyze_missing_values, if_neg hm, if_neg h70, if_pos h20,
                if_neg hdt, if_neg hdc, List.not_mem_nil] at hs
        · by_cases h0 : 0 < missingPct c.cells
          · simp only [analyze_missing_values, if_neg hm, if_neg h70, if_neg h20,
              if_pos h0, List.mem_singleton] at hs
            subst hs; rfl
          · simp only [analyze_missing_values, if_neg hm, if_neg h70, if_neg h20,
              if_neg h0, List.not_mem_nil] at hs

theorem rankGe_of_eq_keys {a b : CleaningSuggestion}
    (h1 : impact_order a.impact_level = impact_order b.impact_level)
    (h2 : a.confidence_score = b.confidence_score) : rankGe a b :=
  Or.inr ⟨h1, le_of_eq h2.symm⟩

/-- C2: the ranker output is the confidence-filtered input (strictly below
the threshold removed), stably sorted by descending (impact rank,
confidence), truncated to the first `k`: members come from the input and
meet the threshold, the length is `min k` (filtered length), consecutive
retained pairs are ordered impact-descending with confidence descending on
equal impact (hence a higher-impact suggestion always precedes a
lower-impact one), and suggestions with equal (impact, confidence) keys
keep their emission order in the sorted list. -/
theorem rank_suggestions_spec (l : List CleaningSuggestion) (t : ℚ) (k : ℕ) :
    (∀ s ∈ rank_suggestions l t k, s ∈ l ∧ t ≤ s.confidence_score) ∧
    (rank_suggestions l t k).length =
      min k (l.filter (fun s => decide (t ≤ s.confidence_score))).length ∧
    List.Pairwise (fun a b =>
      impact_order b.impact_level ≤ impact_order a.impact_level ∧
      (impact_order a.impact_level = impact_order b.impact_level →
        b.confidence_score ≤ a.confidence_score)) (rank_suggestions l t k) ∧
    (∀ a b : CleaningSuggestion,
      impact_order a.impact_level = impact_order b.impact_level →
      a.confidence_score = b.confidence_score →
      List.Sublist [a, b] (l.filter (fun s => decide (t ≤ s.confidence_score))) →
      List.Sublist [a, b] (sorted_filtered l t)) := by
  refine ⟨?_, ?_, ?_, ?_⟩
  · intro s hs
    have h1 : s ∈ sorted_filtered l t := (List.take_sublist k _).subset hs
    have h2 := (List.mem_insertionSort rankGe).mp h1
    have h3 := List.mem_filter.mp h2
    exact ⟨h3.1, of_decide_eq_true h3.2⟩
  · unfold rank_suggestions sorted_filtered
    rw [List.length_take, List.length_insertionSort]
  · have hs : List.Sorted rankGe (sorted_filtered l t) :=
      List.sorted_insertionSort rankGe _
    have hp : List.Pairwise rankGe (rank_suggestions l t k) :=
      hs.sublist (List.take_sublist k _)
    refine hp.imp ?_
    intro a b hab
    rcases hab with h | ⟨h, hc⟩
    · exact ⟨h.le, fun he => absurd (he ▸ h) (lt_irrefl _)⟩
    · exact ⟨le_of_eq h.symm, fun _ => hc⟩
  · intro a b h1 h2 hsub
    exact List.pair_sublist_insertionSort (rankGe_of_eq_keys h1 h2) hsub

theorem applyLoop_append (O : PandasOracle) (req : ApplyCleaningRequest) :
    ∀ (l1 l2 : List CleaningSuggestion) (t : Table),
      applyLoop O req t (l1 ++ l2) = applyLoop O req (applyLoop O req t l1) l2
  | [], _, _ => rfl
  | s :: l1, l2, t => by
    simp only [List.cons_append, applyLoop]
    cases applyOne O t s (paramsFor req s) with
    | ok t2 => exact applyLoop_append O req l1 l2 t2
    | error e => exact applyLoop_append O req l1 l2 t

/-- C5: if applying one selected suggestion raises, that suggestion is
skipped with the table exactly as it was before that step and the remaining
suggestions are still applied in order; in the full pipeline, a failure at
any position continues from the pre-failure table, and the overall apply
operation still returns a table (it is a total function). -/
theorem apply_suggestions_failure_isolation (O : PandasOracle)
    (req : ApplyCleaningRequest) (t : Table) (s : CleaningSuggestion)
    (rest : List CleaningSuggestion) (e : String)
    (h : applyOne O t s (paramsFor req s) = Except.error e) :
    applyLoop O req t (s :: rest) = applyLoop O req t rest ∧
    ∀ (df : Table) (suggestions pre : List CleaningSuggestion),
      List.insertionSort impactGe (selectSuggestions suggestions req) =
        pre ++ s :: rest →
      applyLoop O req df pre = t →
      apply_ai_suggestions O df suggestions req = applyLoop O req t rest := by
  have hskip : applyLoop O req t (s :: rest) = applyLoop O req t rest := by
    simp only [applyLoop, h]
  refine ⟨hskip, ?_⟩
  intro df suggestions pre hsort hpre
  unfold apply_ai_suggestions
  rw [hsort, applyLoop_append, hpre, hskip]

theorem map_name_filterRows (t : Table) (keep : ℕ → Bool) :
    (filterRows t keep).map Col.name = t.map Col.name := by
  simp [filterRows]

theorem map_name_setCol (t : Table) (n : String) (d : Dtype) (cs : List Cell) :
    (setCol t n d cs).map Col.name = t.map Col.name := by
  unfold setCol
  rw [List.map_map]
  refine List.map_congr_left ?_
  intro c _
  by_cases h : c.name = n <;> simp [h]

theorem map_name_handle_missing (O : PandasOracle) (t : Table) (col : String)
    (strat : MissingValueStrategy) :
    (handle_missing_values O t col strat).map Col.name = t.map Col.name := by
  unfold handle_missing_values
  cases findCol? t col with
  | none => rfl
  | some c =>
    cases strat with
    | drop => exact map_name_filterRows t _
    | mean =>
      dsimp only
      by_cases h : isNumericDtype c.dtype = true
      · rw [if_pos h]
        by_cases h2 : (c.cells.filterMap cellAsQ).isEmpty = true
        · rw [if_pos h2]
        · rw [if_neg h2]; exact map_name_setCol t _ _ _
      · rw [if_neg h]
    | median =>
      dsimp only
      by_cases h : isNumericDtype c.dtype = true
      · rw [if_pos h]
        by_cases h2 : (c.cells.filterMap cellAsQ).isEmpty = true
        · rw [if_pos h2]
        · rw [if_neg h2]; exact map_name_setCol t _ _ _
      · rw [if_neg h]
    | mode =>
      dsimp only
      cases O.modeVals (c.cells.filterMap id) with
      | nil => rfl
      | cons v vs => exact map_name_setCol t _ _ _
    | forward_fill => exact map_name_setCol t _ _ _
    | backward_fill => exact map_name_setCol t _ _ _

theorem map_name_convert (O : PandasOracle) (t : Table) (col : String)
    (target : DataType) :
    (convert_column_type O t col target).map Col.name = t.map Col.name := by
  unfold convert_column_type
  cases findCol? t col with
  | none => rfl
  | some c => cases target <;> exact map_name_setCol t _ _ _

theorem hasCol_false_iff (t : Table) (x : String) :
    hasCol t x = false ↔ ∀ c ∈ t, c.name ≠ x := by
  unfold hasCol findCol?
  rw [← Bool.not_eq_true, List.find?_isSome]
  constructor
  · intro h c hc he
    exact h ⟨c, hc, by simp [he]⟩
  · rintro h ⟨c, hc, he⟩
    exact h c hc (by simpa using he)

theorem hasCol_congr_names {t1 t2 : Table}
    (h : t1.map Col.name = t2.map Col.name) (x : String) :
    hasCol t1 x = hasCol t2 x := by
  unfold hasCol findCol?
  rw [Bool.eq_iff_iff, List.find?_isSome, List.find?_isSome]
  constructor
  · rintro ⟨c, hc, he⟩
    have : c.name ∈ t2.map Col.name := h ▸ List.mem_map_of_mem Col.name hc
    rcases List.mem_map.mp this with ⟨c2, hc2, hn⟩
    exact ⟨c2, hc2, by rw [hn]; exact he⟩
  · rintro ⟨c, hc, he⟩
    have : c.name ∈ t1.map Col.name := h.symm ▸ List.mem_map_of_mem Col.name hc
    rcases List.mem_map.mp this with ⟨c2, hc2, hn⟩
    exact ⟨c2, hc2, by rw [hn]; exact he⟩

theorem map_name_strategies_foldl (O : PandasOracle)
    (l : List (String × MissingValueStrategy)) :
    ∀ t : Table,
      ((l.foldl (fun t p =>
        if hasCol t p.1 then handle_missing_values O t p.1 p.2 else t) t).map
          Col.name) = t.map Col.name := by
  induction l with
  | nil => intro t; rfl
  | cons p l ih =>
    intro t
    simp only [List.foldl_cons]
    by_cases h : hasCol t p.1 = true
    · rw [if_pos h, ih, map_name_handle_missing]
    · rw [if_neg h, ih]

theorem strategies_foldl_skip (O : PandasOracle) (x : String) :
    ∀ (l : List (String × MissingValueStrategy)) (t : Table),
      hasCol t x = false →
      l.foldl (fun t p =>
        if hasCol t p.1 then handle_missing_values O t p.1 p.2 else t) t =
      (l.filter (fun p => p.1 != x)).foldl (fun t p =>
        if hasCol t p.1 then handle_missing_values O t p.1 p.2 else t) t := by
  intro l
  induction l with
  | nil => intro t _; rfl
  | cons p l ih =>
    intro t hx
    by_cases hpx : p.1 = x
    · have hno : ¬ hasCol t p.1 = true := by rw [hpx, hx]; simp
      have hfilter : (p :: l).filter (fun p => p.1 != x) =
          l.filter (fun p => p.1 != x) := by
        simp [List.filter_cons, hpx]
      rw [hfilter, List.foldl_cons, if_neg hno]
      exact ih t hx
    · have hkeep : (p.1 != x) = true := bne_iff_ne.mpr hpx
      have hfilter : (p :: l).filter (fun p => p.1 != x) =
          p :: l.filter (fun p => p.1 != x) := by
        simp [List.filter_cons, hkeep]
      rw [hfilter, List.foldl_cons, List.foldl_cons]
      by_cases h : hasCol t p.1 = true
      · rw [if_pos h]
        refine ih _ ?_
        rw [hasCol_congr_names (map_name_handle_missing O t p.1 p.2) x]
        exact hx
      · rw [if_neg h]
        exact ih t hx

/-- C6: the manual applier runs duplicate-removal, then column drops, then
per-column missing-value strategies, then type conversions; hence for any
request that both drops column `x` and carries a missing-value strategy for
`x`, no column named `x` survives, and the strategy entry for `x` is a
no-op: deleting it from the request leaves the output unchanged (and the
applier is a total function, so no error is raised). -/
theorem apply_manual_cleaning_drop_shadows (O : PandasOracle) (df : Table)
    (req : ManualCleaningRequest) (x : String)
    (hx : x ∈ req.columns_to_drop) :
    (∀ c ∈ apply_manual_cleaning O df req, c.name ≠ x) ∧
    apply_manual_cleaning O df req =
      apply_manual_cleaning O df
        { remove_duplicates := req.remove_duplicates,
          missing_value_strategies :=
            req.missing_value_strategies.filter (fun p => p.1 != x),
          columns_to_drop := req.columns_to_drop,
          type_conversions := req.type_conversions } := by
  have hne : req.columns_to_drop.isEmpty = false :=
    List.isEmpty_eq_false.mpr (List.ne_nil_of_mem hx)
  unfold apply_manual_cleaning
  simp only [hne, Bool.false_eq_true, if_false]
  set t1 := if req.remove_duplicates then drop_duplicates_first df else df with ht1
  set t2 := dropColsNamed t1 (req.columns_to_drop.filter (fun n => hasCol t1 n))
    with ht2
  have ht2x : hasCol t2 x = false := by
    rw [hasCol_false_iff]
    intro c hc he
    rw [ht2] at hc
    unfold dropColsNamed at hc
    have hmem := List.mem_filter.mp hc
    by_cases hh : hasCol t1 x = true
    · have hmem2 : x ∈ req.columns_to_drop.filter (fun n => hasCol t1 n) :=
        List.mem_filter.mpr ⟨hx, hh⟩
      have hcont : (req.columns_to_drop.filter
          (fun n => hasCol t1 n)).contains c.name = true := by
        rw [he]
        exact List.elem_eq_true_of_mem hmem2
      rw [hcont] at hmem
      exact absurd hmem.2 (by simp)
    · rw [Bool.not_eq_true, hasCol_false_iff] at hh
      exact hh c hmem.1 he
  constructor
  · intro c hc
    have hnames := map_name_strategies_foldl O req.missing_value_strategies t2
    have hnames2 : ∀ tt : Table, tt.map Col.name = t2.map Col.name →
        ((req.type_conversions.foldl (fun t p =>
          if hasCol t p.1 then convert_column_type O t p.1 p.2 else t)
            tt).map Col.name) = t2.map Col.name := by
      intro tt htt
      induction req.type_conversions generalizing tt with
      | nil => exact htt
      | cons p l ih =>
        simp only [List.foldl_cons]
        by_cases h : hasCol tt p.1 = true
        · rw [if_pos h]
          exact ih _ ((map_name_convert O tt p.1 p.2).trans htt)
        · rw [if_neg h]
          exact ih _ htt
    have hfinal := hnames2 _ hnames
    have hcx : hasCol (req.type_conversions.foldl (fun t p =>
        if hasCol t p.1 then convert_column_type O t p.1 p.2 else t)
          (req.missing_value_strategies.foldl (fun t p =>
            if hasCol t p.1 then handle_missing_values O t p.1 p.2 else t)
              t2)) x = false := by
      rw [hasCol_congr_names hfinal x]
      exact ht2x
    rw [hasCol_false_iff] at hcx
    exact hcx c hc
  · rw [strategies_foldl_skip O x req.missing_value_strategies t2 ht2x]

/-- C7: type inference evaluates on the column with nulls removed and
returns, in priority order: text for an empty column; boolean for native
boolean dtype or all values in the boolean-literal set; numeric for native
numeric dtype; datetime for native timestamp dtype; datetime when the first
100 non-null values parse as timestamps; numeric when they parse as
numbers; categorical when unique/non-null < 0.1 and unique < 50; else text
— and, being a function, exactly one semantic type in every case. -/
theorem detect_data_type_spec (O : PandasOracle) (dtype : Dtype)
    (cells : List Cell) :
    (cells.filterMap id = [] → detect_data_type O dtype cells = DataType.text) ∧
    (cells.filterMap id ≠ [] →
      (dtype = Dtype.boolean ∨ (cells.filterMap id).all isBoolLit = true) →
      detect_data_type O dtype cells = DataType.boolean) ∧
    (cells.filterMap id ≠ [] →
      ¬ (dtype = Dtype.boolean ∨ (cells.filterMap id).all isBoolLit = true) →
      dtype = Dtype.numeric →
      detect_data_type O dtype cells = DataType.numeric) ∧
    (cells.filterMap id ≠ [] →
      ¬ (dtype = Dtype.boolean ∨ (cells.filterMap id).all isBoolLit = true) →
      dtype ≠ Dtype.numeric → dtype = Dtype.datetime →
      detect_data_type O dtype cells = DataType.datetime) ∧
    (cells.filterMap id ≠ [] →
      ¬ (dtype = Dtype.boolean ∨ (cells.filterMap id).all isBoolLit = true) →
      dtype ≠ Dtype.numeric → dtype ≠ Dtype.datetime →
      ((cells.filterMap id).take 100).all
        (fun v => (O.toDatetime v).isSome) = true →
      detect_data_type O dtype cells = DataType.datetime) ∧
    (cells.filterMap id ≠ [] →
      ¬ (dtype = Dtype.boolean ∨ (cells.filterMap id).all isBoolLit = true) →
      dtype ≠ Dtype.numeric → dtype ≠ Dtype.datetime →
      ¬ ((cells.filterMap id).take 100).all
        (fun v => (O.toDatetime v).isSome) = true →
      ((cells.filterMap id).take 100).all
        (fun v => (O.toNumeric v).isSome) = true →
      detect_data_type O dtype cells = DataType.numeric) ∧
    (cells.filterMap id ≠ [] →
      ¬ (dtype = Dtype.boolean ∨ (cells.filterMap id).all isBoolLit = true) →
      dtype ≠ Dtype.numeric → dtype ≠ Dtype.datetime →
      ¬ ((cells.filterMap id).take 100).all
        (fun v => (O.toDatetime v).isSome) = true →
      ¬ ((cells.filterMap id).take 100).all
        (fun v => (O.toNumeric v).isSome) = true →
      (((cells.filterMap id).dedup.length : ℚ) /
          ((cells.filterMap id).length : ℚ) < 1 / 10 ∧
        (cells.filterMap id).dedup.length < 50) →
      detect_data_type O dtype cells = DataType.categorical) ∧
    (cells.filterMap id ≠ [] →
      ¬ (dtype = Dtype.boolean ∨ (cells.filterMap id).all isBoolLit = true) →
      dtype ≠ Dtype.numeric → dtype ≠ Dtype.datetime →
      ¬ ((cells.filterMap id).take 100).all
        (fun v => (O.toDatetime v).isSome) = true →
      ¬ ((cells.filterMap id).take 100).all
        (fun v => (O.toNumeric v).isSome) = true →
      ¬ (((cells.filterMap id).dedup.length : ℚ) /
          ((cells.filterMap id).length : ℚ) < 1 / 10 ∧
        (cells.filterMap id).dedup.length < 50) →
      detect_data_type O dtype cells = DataType.text) := by
  refine ⟨?_, ?_, ?_, ?_, ?_, ?_, ?_, ?_⟩
  · intro h
    unfold detect_data_type
    rw [if_pos (List.length_eq_zero.mpr h)]
  · intro h hb
    have hne : ¬ (cells.filterMap id).length = 0 :=
      fun hl => h (List.length_eq_zero.mp hl)
    unfold detect_data_type
    rw [if_neg hne, if_pos hb]
  · intro h hb hn
    have hne : ¬ (cells.filterMap id).length = 0 :=
      fun hl => h (List.length_eq_zero.mp hl)
    unfold detect_data_type
    rw [if_neg hne, if_neg hb, if_pos hn]
  · intro h hb hn hd
    have hne : ¬ (cells.filterMap id).length = 0 :=
      fun hl => h (List.length_eq_zero.mp hl)
    unfold detect_data_type
    rw [if_neg hne, if_neg hb, if_neg hn, if_pos hd]
  · intro h hb hn hd hpd
    have hne : ¬ (cells.filterMap id).length = 0 :=
      fun hl => h (List.length_eq_zero.mp hl)
    unfold detect_data_type
    rw [if_neg hne, if_neg hb, if_neg hn, if_neg hd, if_pos hpd]
  · intro h hb hn hd hpd hpn
    have hne : ¬ (cells.filterMap id).length = 0 :=
      fun hl => h (List.length_eq_zero.mp hl)
    unfold detect_data_type
    rw [if_neg hne, if_neg hb, if_neg hn, if_neg hd, if_neg hpd, if_pos hpn]
  · intro h hb hn hd hpd hpn hcat
    have hne : ¬ (cells.filterMap id).length = 0 :=
      fun hl => h (List.length_eq_zero.mp hl)
    unfold detect_data_type
    rw [if_neg hne, if_neg hb, if_neg hn, if_neg hd, if_neg hpd, if_neg hpn,
      if_pos hcat]
  · intro h hb hn hd hpd hpn hcat
    have hne : ¬ (cells.filterMap id).length = 0 :=
      fun hl => h (List.length_eq_zero.mp hl)
    unfold detect_data_type
    rw [if_neg hne, if_neg hb, if_neg hn, if_neg hd, if_neg hpd, if_neg hpn,
      if_neg hcat]

theorem getD_map_of_lt {α β : Type} (f : α → β) (l : List α) (i : ℕ)
    (hi : i < l.length) (d : α) (d2 : β) :
    (l.map f).getD i d2 = f (l.getD i d) := by
  rw [List.getD_eq_getElem?_getD, List.getD_eq_getElem?_getD,
    List.getElem?_map, List.getElem?_eq_getElem hi]
  rfl

theorem takeWhile_all_ne : ∀ (l : List Char), '@' ∉ l →
    l.takeWhile (fun c => c != '@') = l
  | [], _ => rfl
  | a :: l, h => by
    have ha : (a != '@') = true :=
      bne_iff_ne.mpr (fun he => h (he ▸ List.mem_cons_self a l))
    have ih := takeWhile_all_ne l (fun hm => h (List.mem_cons_of_mem a hm))
    simp [List.takeWhile_cons, ha, ih]

theorem emailMatch_of_no_at (s : String) (h : '@' ∉ s.toList) :
    emailMatch s = false := by
  simp only [emailMatch]
  rw [takeWhile_all_ne s.toList h]
  rw [List.getD_eq_default]
  · simp
  · exact le_refl _

/-- C8: applying a `validate_emails` suggestion maps every cell whose
stringified value fails the email regex to null — including every value
whose string does not even contain an `@` — leaves matching cells intact,
keeps already-null cells null (their string is "nan", which cannot match),
and therefore every non-null value of the resulting column matches the
email shape. -/
theorem validate_emails_spec (O : PandasOracle) (t : Table)
    (s : CleaningSuggestion) (params : Params) (c : Col)
    (ha : s.suggested_action = CleaningAction.convert_type)
    (hop : params.operation = some "validate_emails")
    (hc : findCol? t s.column = some c) :
    applyOne O t s params = Except.ok (setCol t s.column c.dtype
      (c.cells.map (fun x => if emailMatch (pyStr O x) then x else none))) ∧
    (∀ i, i < c.cells.length →
      (c.cells.map (fun x =>
        if emailMatch (pyStr O x) then x else none)).getD i none =
        (if emailMatch (pyStr O (c.cells.getD i none))
          then c.cells.getD i none else none)) ∧
    (∀ i, i < c.cells.length → c.cells.getD i none = none →
      (c.cells.map (fun x =>
        if emailMatch (pyStr O x) then x else none)).getD i none = none) ∧
    (∀ i, i < c.cells.length →
      '@' ∉ (pyStr O (c.cells.getD i none)).toList →
      (c.cells.map (fun x =>
        if emailMatch (pyStr O x) then x else none)).getD i none = none) ∧
    (∀ x ∈ c.cells.map (fun x => if emailMatch (pyStr O x) then x else none),
      x ≠ none → emailMatch (pyStr O x) = true) := by
  have hmap : ∀ i, i < c.cells.length →
      (c.cells.map (fun x =>
        if emailMatch (pyStr O x) then x else none)).getD i none =
        (if emailMatch (pyStr O (c.cells.getD i none))
          then c.cells.getD i none else none) := by
    intro i hi
    exact getD_map_of_lt _ c.cells i hi none none
  refine ⟨?_, hmap, ?_, ?_, ?_⟩
  · unfold applyOne
    rw [ha]
    dsimp only
    rw [hop, if_neg (by decide : ¬ (some "validate_emails" : Option String) =
        some "standardize_case"),
      if_neg (by decide : ¬ (some "validate_emails" : Option String) =
        some "trim_whitespace"),
      if_pos rfl, hc]
  · intro i hi hnone
    rw [hmap i hi, hnone]
    exact ite_self none
  · intro i hi hat
    rw [hmap i hi]
    rw [emailMatch_of_no_at _ hat]
    simp
  · intro x hx hne
    rcases List.mem_map.mp hx with ⟨y, _, hy⟩
    by_cases hm : emailMatch (pyStr O y) = true
    · rw [if_pos hm] at hy
      subst hy
      exact hm
    · rw [if_neg hm] at hy
      exact absurd hy.symm hne

theorem cmpMask_ok (lb ub : ℚ) :
    ∀ cells : List Cell, cells.all isNumOrNull = true →
      cmpMask lb ub cells = Except.ok (cells.map (boundsKeep lb ub))
  | [], _ => rfl
  | x :: xs, h => by
    rw [List.all_cons, Bool.and_eq_true] at h
    have ih := cmpMask_ok lb ub xs h.2
    cases x with
    | none =>
      simp only [cmpMask, cellCmpBounds, ih, List.map_cons]
      rfl
    | some v =>
      cases v with
      | num q =>
        simp only [cmpMask, cellCmpBounds, ih, List.map_cons]
        rfl
      | str s2 => exact absurd h.1 (by simp [isNumOrNull])
      | bool b => exact absurd h.1 (by simp [isNumOrNull])
      | time t2 => exact absurd h.1 (by simp [isNumOrNull])

/-- C9: applying a `remove_outliers` suggestion with IQR bounds keeps
exactly the rows whose cell in the target column is a number `q` with
`lb <= q <= ub`; a null cell satisfies neither comparison, so its row is
removed too.  The hypothesis that the column holds only numbers and nulls
is what makes the pandas comparison exception-free. -/
theorem remove_outliers_spec (O : PandasOracle) (t : Table)
    (s : CleaningSuggestion) (params : Params) (c : Col) (lb ub : ℚ)
    (ha : s.suggested_action = CleaningAction.remove_outliers)
    (hm : params.method = some "iqr")
    (hlb : params.lower_bound = some lb) (hub : params.upper_bound = some ub)
    (hc : findCol? t s.column = some c)
    (hnum : c.cells.all isNumOrNull = true) :
    applyOne O t s params = Except.ok (filterRows t
      (fun i => (c.cells.map (boundsKeep lb ub)).getD i false)) ∧
    (∀ i, i < c.cells.length →
      ((c.cells.map (boundsKeep lb ub)).getD i false = true ↔
        ∃ q, c.cells.getD i none = some (Val.num q) ∧ lb ≤ q ∧ q ≤ ub)) ∧
    (∀ i, i < c.cells.length → c.cells.getD i none = none →
      (c.cells.map (boundsKeep lb ub)).getD i false = false) := by
  refine ⟨?_, ?_, ?_⟩
  · unfold applyOne
    rw [ha]
    dsimp only
    rw [hm, if_pos rfl, hlb, hub]
    dsimp only
    rw [hc]
    dsimp only
    rw [cmpMask_ok lb ub c.cells hnum]
  · intro i hi
    rw [getD_map_of_lt _ c.cells i hi none false]
    cases hcell : c.cells.getD i none with
    | none => simp [boundsKeep]
    | some v =>
      cases v with
      | num q => simp [boundsKeep]
      | str s2 => simp [boundsKeep]
      | bool b => simp [boundsKeep]
      | time t2 => simp [boundsKeep]
  · intro i hi hnone
    rw [getD_map_of_lt _ c.cells i hi none false, hnone]
    rfl

/-- C10: applying a `standardize_phones` suggestion replaces every value of
the column — phone-like or not — with the string of its digits only,
reformatted as `NNN-NNN-NNNN` exactly when the digit string has length 10;
a null cell becomes the empty string, because it is first stringified to
"nan", whose non-digit characters are then all removed. -/
theorem standardize_phones_spec (O : PandasOracle) (t : Table)
    (s : CleaningSuggestion) (params : Params) (c : Col)
    (ha : s.suggested_action = CleaningAction.convert_type)
    (hop : params.operation = some "standardize_phones")
    (hc : findCol? t s.column = some c) :
    applyOne O t s params = Except.ok (setCol t s.column Dtype.object
      (c.cells.map (fun x =>
        some (Val.str (formatPhone (digitsOnly (pyStr O x))))))) ∧
    (∀ x : Cell, (digitsOnly (pyStr O x)).length = 10 →
      formatPhone (digitsOnly (pyStr O x)) =
        dashFormat (digitsOnly (pyStr O x))) ∧
    (∀ x : Cell, (digitsOnly (pyStr O x)).length ≠ 10 →
      formatPhone (digitsOnly (pyStr O x)) = digitsOnly (pyStr O x)) ∧
    (∀ i, i < c.cells.length → c.cells.getD i none = none →
      (c.cells.map (fun x =>
        some (Val.str (formatPhone (digitsOnly (pyStr O x)))))).getD i none =
        some (Val.str "")) := by
  refine ⟨?_, ?_, ?_, ?_⟩
  · unfold applyOne
    rw [ha]
    dsimp only
    rw [hop, if_neg (by decide : ¬ (some "standardize_phones" : Option String) =
        some "standardize_case"),
      if_neg (by decide : ¬ (some "standardize_phones" : Option String) =
        some "trim_whitespace"),
      if_neg (by decide : ¬ (some "standardize_phones" : Option String) =
        some "validate_emails"),
      if_pos rfl, hc]
  · intro x hlen
    unfold formatPhone
    rw [if_pos hlen]
  · intro x hlen
    unfold formatPhone
    rw [if_neg hlen]
  · intro i hi hnone
    rw [getD_map_of_lt _ c.cells i hi none none, hnone]
    rfl

theorem succeededList_subset (O : PandasOracle) (req : ApplyCleaningRequest) :
    ∀ (l : List CleaningSuggestion) (t : Table) (s : CleaningSuggestion),
      s ∈ succeededList O req t l → s ∈ l
  | [], _, s, h => absurd h (List.not_mem_nil s)
  | s2 :: rest, t, s, h => by
    simp only [succeededList] at h
    cases he : applyOne O t s2 (paramsFor req s2) with
    | ok t2 =>
      rw [he] at h
      rcases List.mem_cons.mp h with h | h
      · exact h ▸ List.mem_cons_self _ _
      · exact List.mem_cons_of_mem _ (succeededList_subset O req rest t2 s h)
    | error e =>
      rw [he] at h
      exact List.mem_cons_of_mem _ (succeededList_subset O req rest t s h)

/-- C1 counterexample: a selected suggestion whose application raises (here
a `fill_missing` on a column absent from the table, so a `KeyError`) is
skipped by the cleaner, yet the endpoint's applied-suggestions list still
contains it — the applied list is not the list of suggestions whose
transformation actually succeeded. -/
theorem applied_list_mismatch_counterexample :
    applyOne O0 wTable wFailSug (paramsFor wReq wFailSug) =
      Except.error "KeyError" ∧
    applied_succeeded O0 wTable [wFailSug] wReq = [] ∧
    applied_suggestions_report [wFailSug] wReq = [wFailSug] ∧
    applied_suggestions_report [wFailSug] wReq ≠
      applied_succeeded O0 wTable [wFailSug] wReq :=
  ⟨rfl, rfl, rfl, by decide⟩

/-- C1 (amended): the applied-suggestions list the apply endpoint reports
contains every selected suggestion — those whose id is in the request and
that are present in the store — regardless of whether its transformation
succeeded or raised; in particular it is a superset of the suggestions
that actually succeeded, and failures are not reported as errors. -/
theorem applied_list_contains_all_selected (O : PandasOracle) (df : Table)
    (suggestions : List CleaningSuggestion) (req : ApplyCleaningRequest) :
    (∀ s ∈ suggestions, s.id ∈ req.suggestion_ids →
      s ∈ applied_suggestions_report suggestions req) ∧
    (∀ s ∈ applied_succeeded O df suggestions req,
      s ∈ applied_suggestions_report suggestions req) := by
  constructor
  · intro s hs hid
    exact List.mem_filter.mpr ⟨hs, List.elem_eq_true_of_mem hid⟩
  · intro s hs
    have h1 : s ∈ List.insertionSort impactGe (selectSuggestions suggestions req) :=
      succeededList_subset O req _ df s hs
    have h2 : s ∈ selectSuggestions suggestions req :=
      (List.mem_insertionSort impactGe).mp h1
    exact h2

/-- Concrete witness for the ranker theorem: a single above-threshold
suggestion survives ranking and carries its confidence bound. -/
theorem rank_suggestions_spec_witness :
    wRankSug ∈ [wRankSug] ∧ (0 : ℚ) ≤ wRankSug.confidence_score := by
  have he : rank_suggestions [wRankSug] 0 1 = [wRankSug] := rfl
  have hmem : wRankSug ∈ rank_suggestions [wRankSug] 0 1 := by
    rw [he]; exact List.mem_singleton.mpr rfl
  exact (rank_suggestions_spec [wRankSug] 0 1).1 wRankSug hmem

/-- Concrete witness for the missing-values analyzer theorem: a numeric
column with 50% missing yields the mean-imputation suggestion. -/
theorem analyze_missing_values_spec_witness :
    ∃ s, analyze_missing_values O0 wMissCol = [s] ∧
      s.suggested_action = CleaningAction.fill_missing ∧
      s.parameters.strategy =
        some (if 1 < O0.skewQ wMissCol.cells then "median" else "mean") ∧
      s.impact_level = ImpactLevel.medium ∧
      s.confidence_score = 8 / 10 ∧
      s.affected_rows = missingCount wMissCol.cells := by
  have h1 : (20 : ℚ) < missingPct wMissCol.cells := by
    unfold missingPct
    norm_num [missingCount, wMissCol]
  have h2 : missingPct wMissCol.cells ≤ 70 := by
    unfold missingPct
    norm_num [missingCount, wMissCol]
  have h3 : detect_data_type O0 wMissCol.dtype wMissCol.cells =
      DataType.numeric := by decide
  exact (analyze_missing_values_spec O0 wMissCol).2.2.1 h1 h2 h3

/-- Concrete witness for the duplicates analyzer theorem: a column with one
duplicated value produces the single removal suggestion. -/
theorem analyze_duplicates_spec_witness :
    ∃ s, analyze_duplicates O0 wTable = [s] ∧
      s.affected_rows = dupRowCount wTable ∧
      s.suggested_action = CleaningAction.drop_duplicates ∧
      s.parameters.keep = some "first" ∧
      s.confidence_score = 95 / 100 ∧
      (s.impact_level = ImpactLevel.high ↔
        (nRows wTable : ℚ) * (1 / 10) < (dupRowCount wTable : ℚ)) ∧
      (s.impact_level = ImpactLevel.high ∨
        s.impact_level = ImpactLevel.medium) := by
  have h : 0 < dupRowCount wTable := by decide
  exact (analyze_duplicates_spec O0 wTable).2.2 h

/-- Concrete witness for failure isolation: the `KeyError`-raising
suggestion is skipped and the loop continues as if it were absent. -/
theorem apply_suggestions_failure_isolation_witness :
    applyLoop O0 wReq wTable [wFailSug] = applyLoop O0 wReq wTable [] :=
  (apply_suggestions_failure_isolation O0 wReq wTable wFailSug [] "KeyError"
    rfl).1

/-- Concrete witness for the manual-pipeline ordering theorem at a request
that both drops `x` and gives `x` a strategy. -/
theorem apply_manual_cleaning_drop_shadows_witness :
    (∀ c ∈ apply_manual_cleaning O0 wManualTable wManualReq, c.name ≠ "x") ∧
    apply_manual_cleaning O0 wManualTable wManualReq =
      apply_manual_cleaning O0 wManualTable
        { remove_duplicates := wManualReq.remove_duplicates,
          missing_value_strategies :=
            wManualReq.missing_value_strategies.filter (fun p => p.1 != "x"),
          columns_to_drop := wManualReq.columns_to_drop,
          type_conversions := wManualReq.type_conversions } :=
  apply_manual_cleaning_drop_shadows O0 wManualTable wManualReq "x" (by decide)

/-- Concrete witness for the type-inference theorem: a native numeric,
non-boolean-literal column infers numeric. -/
theorem detect_data_type_spec_witness :
    detect_data_type O0 Dtype.numeric wMissCol.cells = DataType.numeric := by
  refine (detect_data_type_spec O0 Dtype.numeric wMissCol.cells).2.2.1 ?_ ?_ rfl
  · decide
  · decide

/-- Concrete witness for the email-validation theorem on a column with one
valid address, one `@`-free string and one null. -/
theorem validate_emails_spec_witness :
    applyOne O0 [wEmailCol] wEmailSug wEmailSug.parameters =
      Except.ok (setCol [wEmailCol] "e" Dtype.object
        (wEmailCol.cells.map (fun x =>
          if emailMatch (pyStr O0 x) then x else none))) :=
  (validate_emails_spec O0 [wEmailCol] wEmailSug wEmailSug.parameters
    wEmailCol rfl rfl rfl).1

/-- Concrete witness for the outlier-removal theorem with bounds `[0, 10]`
over a numeric column holding a null. -/
theorem remove_outliers_spec_witness :
    applyOne O0 [wOutCol] wOutSug wOutSug.parameters =
      Except.ok (filterRows [wOutCol]
        (fun i => (wOutCol.cells.map (boundsKeep 0 10)).getD i false)) :=
  (remove_outliers_spec O0 [wOutCol] wOutSug wOutSug.parameters wOutCol 0 10
    rfl rfl rfl rfl rfl (by decide)).1

/-- Concrete witness for the phone-standardization theorem. -/
theorem standardize_phones_spec_witness :
    applyOne O0 [wPhoneCol] wPhoneSug wPhoneSug.parameters =
      Except.ok (setCol [wPhoneCol] "p" Dtype.object
        (wPhoneCol.cells.map (fun x =>
          some (Val.str (formatPhone (digitsOnly (pyStr O0 x))))))) :=
  (standardize_phones_spec O0 [wPhoneCol] wPhoneSug wPhoneSug.parameters
    wPhoneCol rfl rfl rfl).1

/-- Concrete witness for the amended applied-list theorem: the selected
(and failing) suggestion is in the reported applied list. -/
theorem applied_list_contains_all_selected_witness :
    wFailSug ∈ applied_suggestions_report [wFailSug] wReq :=
  (applied_list_contains_all_selected O0 wTable [wFailSug] wReq).1 wFailSug
    (List.mem_singleton.mpr rfl) (by decide)

end SmartScrub
